import Mathlib

/-!
Shallow embedding of the motion-triggered video controller in
`apps/libcamera_motionvid.cpp`: the configuration options, the per-frame
vote-aggregation and recording state machine executed by `event_loop`,
the key/signal resolution of `get_key_or_signal`, and the encode buffer
queue of `LibcameraMotionDetectApp`.

Machine `int`s of the loop (`frame_count`, `movie_num`, `frame_num`,
`gap`) are modelled as `Nat`: every reachable value in the source is
non-negative, and the one signed comparison, `frame_num == gap - 1`
with `frame_num >= 0`, is rendered faithfully for all `gap >= 0` as
`frame_num + 1 = gap`.  The `int frames[10000]` vote array is modelled
as a total function `Nat → Nat` (votes are stored as 0/1 ints); the
10000-entry capacity is a fact about the C declaration discussed at the
bounds claims.  External pipeline calls (`StopCamera`, `Teardown`,
`StartEncoder`, ...) are recorded as an effect trace.
-/

namespace MotionVid

/-- External side effects performed by one pass of the event loop, in
program order.  `createOutput p` is `Output::Create` after `options->output`
was set to `p`; `configureVideo f` carries the colourspace flags. -/
inductive Eff where
  | signalOutput
  | stopCamera
  | stopEncoder
  | teardown
  | createOutput (path : String)
  | configureVideo (flags : Nat)
  | startEncoder
  | startCamera
  | encodeBuffer
  | showPreview
  deriving DecidableEq, BEq, Repr

/-- The option fields of `MotionDetectOptions` (and the inherited
`VideoOptions` fields) that `event_loop` reads. -/
structure MotionDetectOptions where
  minframes : Nat
  gap : Nat
  savedir : String
  timeout : Nat
  frames : Nat
  output : String
  keypress : Bool
  signal : Bool
  codec : String
  deriving DecidableEq, Repr

/-- The `MotionDetectOptions` constructor only registers the `minframes`,
`gap` and `savedir` options with their defaults; it performs no range or
validity check on any value (source lines 29-53), so every configuration
is accepted. -/
def motionDetectOptionsAccepts (_opts : MotionDetectOptions) : Bool :=
  true

/-- Flags value of `get_colourspace_flags`; the two flag constants are
external, modelled as distinct numbers. -/
def FLAG_VIDEO_NONE : Nat := 0

def FLAG_VIDEO_JPEG_COLOURSPACE : Nat := 1

def get_colourspace_flags (codec : String) : Nat :=
  if codec = "mjpeg" || codec = "yuv420" then FLAG_VIDEO_JPEG_COLOURSPACE
  else FLAG_VIDEO_NONE

/-- The mutable locals of the `event_loop` body that survive an iteration. -/
structure LoopState where
  motion_detected : Bool
  frame_count : Nat
  movie_num : Nat
  frame_num : Nat
  frames : Nat → Nat
  motion_test : Bool
  output : String

/-- The locals at loop entry: `motion_detected = false`, all counters 0,
`frames` zero-initialised, `motion_test = false`, `options->output`
still the startup value. -/
def initState (origoutput : String) : LoopState :=
  { motion_detected := false
    frame_count := 0
    movie_num := 0
    frame_num := 0
    frames := fun _ => 0
    motion_test := false
    output := origoutput }

/-- Per-frame input: the `motion_detect.result` metadata boolean, and the
wall-clock timestamp string the transition would format (`%Y-%m-%d_%H-%M-%S`
of `std::localtime` at that tick). -/
structure TickIn where
  motion_val : Bool
  ts : String
  deriving DecidableEq, Repr

/-- `sum` of `frames[0..gap-1]` computed by the evaluation loop. -/
def windowSum (gap : Nat) (frames : Nat → Nat) : Nat :=
  ((List.range gap).map frames).sum

/-- The motion-triggered output filename built on an Idle-to-Recording
transition: `savedir + "/" + datentime + "-motionmov.h264"` (source
lines 274-275); the extension is the literal `".h264"`. -/
def motionPath (savedir ts : String) : String :=
  savedir ++ "/" ++ ts ++ "-motionmov.h264"

/-- Lines 229-250: store the vote at `frames[frame_num]`; if
`frame_num == gap - 1` sum the window, reset `frame_num` to 0 and set
`motion_test`; then increment `frame_num` (also on evaluation ticks:
the reset cursor becomes 1, not 0). -/
def aggregate (gap : Nat) (motion_val : Bool) (s : LoopState) : LoopState :=
  let frames1 : Nat → Nat :=
    fun j => if j = s.frame_num then (if motion_val then 1 else 0) else s.frames j
  if s.frame_num + 1 = gap then
    { s with
        frames := frames1
        frame_num := 0 + 1
        motion_test := decide (0 < windowSum gap frames1) }
  else
    { s with frames := frames1, frame_num := s.frame_num + 1 }

/-- Whether the evaluation branch (`frame_num == gap - 1`) fires when a
vote arrives in state `s`. -/
def evalFires (gap : Nat) (s : LoopState) : Bool :=
  s.frame_num + 1 = gap

/-- The synchronous teardown/restart effect sequence both transitions
perform: stop camera, tear down, recreate the output sink at `path`,
reconfigure, restart encoder, restart camera. -/
def transitionEffs (opts : MotionDetectOptions) (path : String) : List Eff :=
  [Eff.stopCamera, Eff.teardown, Eff.createOutput path,
   Eff.configureVideo (get_colourspace_flags opts.codec), Eff.startEncoder,
   Eff.startCamera]

/-- Lines 258-303: the transition chain on the post-aggregation state.
Returns the new state and the effects of the taken branch.  `capture`
starts `true` and is only cleared inside the first two branches, so the
trailing `else if (capture)` is reached exactly when neither transition
fired. -/
def stateMachine (opts : MotionDetectOptions) (origoutput : String)
    (ts : String) (s : LoopState) : LoopState × List Eff :=
  if s.motion_test && !s.motion_detected then
    ({ s with
        movie_num := s.movie_num + 1
        frame_count := opts.minframes
        motion_detected := true
        output := motionPath opts.savedir ts },
     transitionEffs opts (motionPath opts.savedir ts))
  else if !s.motion_test && s.motion_detected && s.frame_count == 0 then
    ({ s with
        motion_detected := false
        output := origoutput },
     transitionEffs opts origoutput)
  else
    (s, [Eff.encodeBuffer, Eff.showPreview])

/-- Line 304-307: `if (frame_count > 0) frame_count--;` at the end of
every iteration. -/
def endDecrement (s : LoopState) : LoopState :=
  if 0 < s.frame_count then { s with frame_count := s.frame_count - 1 } else s

/-- One frame-processing pass (lines 225-307): aggregation, transition
chain, trailing hold-counter decrement. -/
def processFrame (opts : MotionDetectOptions) (origoutput : String)
    (inp : TickIn) (s : LoopState) : LoopState × List Eff :=
  let r := stateMachine opts origoutput inp.ts (aggregate opts.gap inp.motion_val s)
  (endDecrement r.1, r.2)

/-- The state successor of one frame-processing pass. -/
def stepSt (opts : MotionDetectOptions) (origoutput : String)
    (s : LoopState) (inp : TickIn) : LoopState :=
  (processFrame opts origoutput inp s).1

/-- Fold of the frame-processing pass over a list of per-frame inputs. -/
def runSt (opts : MotionDetectOptions) (origoutput : String)
    (s : LoopState) (l : List TickIn) : LoopState :=
  l.foldl (stepSt opts origoutput) s

/-- The Idle-to-Recording guard: the debounced flag (after aggregation)
is set and `motion_detected` is not. -/
def firesStart (opts : MotionDetectOptions) (s : LoopState) (inp : TickIn) : Bool :=
  (aggregate opts.gap inp.motion_val s).motion_test &&
    !(aggregate opts.gap inp.motion_val s).motion_detected

/-- The Recording-to-Idle guard: the debounced flag (after aggregation)
is clear, `motion_detected` is set and the hold counter is 0. -/
def firesStop (opts : MotionDetectOptions) (s : LoopState) (inp : TickIn) : Bool :=
  !(aggregate opts.gap inp.motion_val s).motion_test &&
    (aggregate opts.gap inp.motion_val s).motion_detected &&
    (aggregate opts.gap inp.motion_val s).frame_count == 0

/-! ## Key and signal resolution (`get_key_or_signal`, lines 134-157) -/

/-- Linux signal numbers used by the app. -/
def SIGUSR1 : Nat := 10

def SIGUSR2 : Nat := 12

/-- `int key` values as character codes: `'\n'` is 10, `'x'` 120, `'X'` 88. -/
def keyNewline : Nat := 10

def keyLowerX : Nat := 120

def keyUpperX : Nat := 88

/-- `get_key_or_signal`: with `keypress` set and stdin readable, `key`
becomes the first character of the line read; with `signal` set,
`SIGUSR1`/`SIGUSR2` in the global `signal_received` override it with
`'\n'`/`'x'` and the global is cleared.  Returns the resolved key and
the new `signal_received` value. -/
def get_key_or_signal (opts : MotionDetectOptions) (stdin_ready : Bool)
    (stdin_first : Nat) (signal_received : Nat) : Nat × Nat :=
  let key := 0
  let key := if opts.keypress && stdin_ready then stdin_first else key
  if opts.signal then
    (if signal_received = SIGUSR1 then keyNewline
     else if signal_received = SIGUSR2 then keyLowerX
     else key, 0)
  else (key, signal_received)

/-! ## One full event-loop iteration (lines 197-308) -/

/-- The message type returned by `app.Wait()`: `Quit`, `RequestComplete`
(whose payload's motion vote and timestamp are carried in `IterIn`), or
any other type (which raises `unrecognised message!`). -/
inductive MsgType where
  | Quit
  | RequestComplete
  | Other
  deriving DecidableEq, Repr

/-- Input of one loop iteration: the waited message, the resolved key,
the elapsed wall time in milliseconds, and the frame's vote/timestamp. -/
structure IterIn where
  msg : MsgType
  key : Nat
  elapsed : Nat
  motion_val : Bool
  ts : String
  deriving DecidableEq, Repr

/-- `bool timeout`: `frames` is 0, `timeout` nonzero, and elapsed time
strictly exceeds it. -/
def timeoutFlag (opts : MotionDetectOptions) (elapsed : Nat) : Bool :=
  opts.frames == 0 && opts.timeout != 0 && decide (opts.timeout < elapsed)

/-- `bool frameout`: `frames` nonzero and `count >= frames`. -/
def frameoutFlag (opts : MotionDetectOptions) (count : Nat) : Bool :=
  opts.frames != 0 && decide (opts.frames ≤ count)

/-- Result of one iteration: `exit` is a `return` from `event_loop`,
`err` a thrown `unrecognised message!`, `cont` continues with the new
state; each carries the effects of the iteration in order. -/
inductive IterResult where
  | exit (effs : List Eff)
  | err (effs : List Eff)
  | cont (s : LoopState) (effs : List Eff)

/-- One iteration of the `for` loop at iteration counter `count`:
`Quit` returns at once; a non-`RequestComplete` message throws; a
newline key signals the output sink; then the timeout/framecount/stop-key
check returns after `StopCamera`/`StopEncoder`; otherwise the frame is
processed. -/
def eventIter (opts : MotionDetectOptions) (origoutput : String)
    (count : Nat) (inp : IterIn) (s : LoopState) : IterResult :=
  match inp.msg with
  | MsgType.Quit => IterResult.exit []
  | MsgType.Other => IterResult.err []
  | MsgType.RequestComplete =>
    let keyEffs := if inp.key = keyNewline then [Eff.signalOutput] else []
    if timeoutFlag opts inp.elapsed || frameoutFlag opts count
        || inp.key = keyLowerX || inp.key = keyUpperX then
      IterResult.exit (keyEffs ++ [Eff.stopCamera, Eff.stopEncoder])
    else
      let (s', effs) := processFrame opts origoutput ⟨inp.motion_val, inp.ts⟩ s
      IterResult.cont s' (keyEffs ++ effs)

/-- How a finite run of the loop ended: by `return` (`exited`), by a
thrown exception (`errored`), or by exhausting the supplied inputs
(`ranOut` with the live state). -/
inductive RunOut where
  | exited
  | errored
  | ranOut (s : LoopState)

/-- Run the loop over a finite list of iteration inputs starting at
iteration counter `count`, concatenating all effects. -/
def runLoop (opts : MotionDetectOptions) (origoutput : String) :
    Nat → LoopState → List IterIn → List Eff × RunOut
  | _, s, [] => ([], RunOut.ranOut s)
  | count, s, inp :: rest =>
    match eventIter opts origoutput count inp s with
    | IterResult.exit effs => (effs, RunOut.exited)
    | IterResult.err effs => (effs, RunOut.errored)
    | IterResult.cont s' effs =>
      let (tr, out) := runLoop opts origoutput (count + 1) s' rest
      (effs ++ tr, out)

/-! ## Encode buffer queue (`LibcameraMotionDetectApp`, lines 74-123) -/

/-- `EncodeBuffer` pushes the completed request (a new shared reference,
modelled by an id) at the queue tail under the queue mutex. -/
def encodeBufferPush (q : List Nat) (req : Nat) : List Nat :=
  q ++ [req]

/-- `encodeBufferDone`: under the queue mutex, an empty queue throws
`no buffer available to return`; otherwise the head reference is popped
and dropped.  Returns the dropped reference and the remaining queue. -/
def encodeBufferDone (q : List Nat) : Except String (Nat × List Nat) :=
  match q with
  | [] => Except.error "no buffer available to return"
  | r :: rest => Except.ok (r, rest)

/-! ## Basic lemmas about the step components -/

lemma aggregate_motion_detected (g : Nat) (v : Bool) (s : LoopState) :
    (aggregate g v s).motion_detected = s.motion_detected := by
  by_cases h : s.frame_num + 1 = g <;> simp [aggregate, h]

lemma aggregate_frame_count (g : Nat) (v : Bool) (s : LoopState) :
    (aggregate g v s).frame_count = s.frame_count := by
  by_cases h : s.frame_num + 1 = g <;> simp [aggregate, h]

lemma aggregate_output (g : Nat) (v : Bool) (s : LoopState) :
    (aggregate g v s).output = s.output := by
  by_cases h : s.frame_num + 1 = g <;> simp [aggregate, h]

lemma endDecrement_motion_detected (s : LoopState) :
    (endDecrement s).motion_detected = s.motion_detected := by
  unfold endDecrement
  split <;> rfl

lemma endDecrement_output (s : LoopState) :
    (endDecrement s).output = s.output := by
  unfold endDecrement
  split <;> rfl

lemma endDecrement_frame_num (s : LoopState) :
    (endDecrement s).frame_num = s.frame_num := by
  unfold endDecrement
  split <;> rfl

lemma endDecrement_frame_count (s : LoopState) :
    (endDecrement s).frame_count = s.frame_count - 1 := by
  unfold endDecrement
  split
  · rfl
  · omega

/-- On a tick where the Idle-to-Recording guard holds, the processing
pass takes the first branch: the post-aggregation state gets the session
counter bump, `frame_count = minframes`, `motion_detected = true` and
the timestamped output path, followed by the trailing decrement; the
effects are the teardown/restart sequence at the motion path. -/
lemma processFrame_start (opts : MotionDetectOptions) (o : String)
    (i : TickIn) (s : LoopState) (h : firesStart opts s i = true) :
    processFrame opts o i s =
      (endDecrement
        { aggregate opts.gap i.motion_val s with
            movie_num := (aggregate opts.gap i.motion_val s).movie_num + 1
            frame_count := opts.minframes
            motion_detected := true
            output := motionPath opts.savedir i.ts },
       transitionEffs opts (motionPath opts.savedir i.ts)) := by
  unfold firesStart at h
  unfold processFrame stateMachine
  rw [h]
  simp

/-- On a tick where the Recording-to-Idle guard holds, the processing
pass takes the second branch: `motion_detected` is cleared and the
output path restored, and the effects are the teardown/restart sequence
at the original path. -/
lemma processFrame_stop (opts : MotionDetectOptions) (o : String)
    (i : TickIn) (s : LoopState) (h0 : firesStart opts s i = false)
    (h1 : firesStop opts s i = true) :
    processFrame opts o i s =
      (endDecrement
        { aggregate opts.gap i.motion_val s with
            motion_detected := false
            output := o },
       transitionEffs opts o) := by
  unfold firesStart at h0
  unfold firesStop at h1
  unfold processFrame stateMachine
  rw [h0, h1]
  simp

/-- On a tick where neither guard holds, the frame is forwarded:
the state is the aggregated one (plus trailing decrement) and the
effects are encode + preview. -/
lemma processFrame_none (opts : MotionDetectOptions) (o : String)
    (i : TickIn) (s : LoopState) (h0 : firesStart opts s i = false)
    (h1 : firesStop opts s i = false) :
    processFrame opts o i s =
      (endDecrement (aggregate opts.gap i.motion_val s),
       [Eff.encodeBuffer, Eff.showPreview]) := by
  unfold firesStart at h0
  unfold firesStop at h1
  unfold processFrame stateMachine
  rw [h0, h1]
  simp

lemma runSt_nil (opts : MotionDetectOptions) (o : String) (s : LoopState) :
    runSt opts o s [] = s := rfl

lemma runSt_cons (opts : MotionDetectOptions) (o : String) (s : LoopState)
    (i : TickIn) (l : List TickIn) :
    runSt opts o s (i :: l) = runSt opts o (stepSt opts o s i) l := rfl

/-- Recording state blocks the start guard. -/
lemma firesStart_false_of_detected (opts : MotionDetectOptions)
    (s : LoopState) (i : TickIn) (h : s.motion_detected = true) :
    firesStart opts s i = false := by
  unfold firesStart
  rw [aggregate_motion_detected, h]
  simp

/-- A positive hold counter blocks the stop guard. -/
lemma firesStop_false_of_count_pos (opts : MotionDetectOptions)
    (s : LoopState) (i : TickIn) (h : 0 < s.frame_count) :
    firesStop opts s i = false := by
  unfold firesStop
  rw [aggregate_frame_count]
  have : (s.frame_count == 0) = false := by
    simp only [beq_eq_false_iff_ne, ne_eq]
    omega
  rw [this]
  simp

/-- The Idle state blocks the stop guard. -/
lemma firesStop_false_of_not_detected (opts : MotionDetectOptions)
    (s : LoopState) (i : TickIn) (h : s.motion_detected = false) :
    firesStop opts s i = false := by
  unfold firesStop
  rw [aggregate_motion_detected, h]
  simp

/-- The start guard requires the Idle state. -/
lemma detected_false_of_firesStart (opts : MotionDetectOptions)
    (s : LoopState) (i : TickIn) (h : firesStart opts s i = true) :
    s.motion_detected = false := by
  unfold firesStart at h
  rw [aggregate_motion_detected] at h
  rcases Bool.and_eq_true_iff.mp h with ⟨-, h2⟩
  simpa using h2

/-- After a start transition the flag is set. -/
lemma stepSt_detected_of_start (opts : MotionDetectOptions) (o : String)
    (s : LoopState) (i : TickIn) (h : firesStart opts s i = true) :
    (stepSt opts o s i).motion_detected = true := by
  unfold stepSt
  rw [processFrame_start opts o i s h]
  rw [endDecrement_motion_detected]

/-- A non-transition tick leaves the flag unchanged. -/
lemma stepSt_detected_of_none (opts : MotionDetectOptions) (o : String)
    (s : LoopState) (i : TickIn) (h0 : firesStart opts s i = false)
    (h1 : firesStop opts s i = false) :
    (stepSt opts o s i).motion_detected = s.motion_detected := by
  unfold stepSt
  rw [processFrame_none opts o i s h0 h1]
  rw [endDecrement_motion_detected, aggregate_motion_detected]

/-- While `motion_detected` holds, it can only fall on a tick whose
Recording-to-Idle guard fires: if a run ends with the flag clear, some
input of the run fired the stop guard. -/
lemma stop_fired_of_detected_lost (opts : MotionDetectOptions) (o : String) :
    ∀ (l : List TickIn) (s : LoopState), s.motion_detected = true →
      (runSt opts o s l).motion_detected = false →
      ∃ la i lb, l = la ++ i :: lb ∧ firesStop opts (runSt opts o s la) i = true := by
  intro l
  induction l with
  | nil =>
    intro s hdet hrun
    rw [runSt_nil] at hrun
    rw [hdet] at hrun
    exact absurd hrun (by simp)
  | cons i l ih =>
    intro s hdet hrun
    by_cases hstop : firesStop opts s i = true
    · exact ⟨[], i, l, rfl, by simpa [runSt_nil] using hstop⟩
    · have hstart : firesStart opts s i = false :=
        firesStart_false_of_detected opts s i hdet
      have hdet' : (stepSt opts o s i).motion_detected = true := by
        rw [stepSt_detected_of_none opts o s i hstart (by simpa using hstop)]
        exact hdet
      rw [runSt_cons] at hrun
      obtain ⟨la, j, lb, hsplit, hfire⟩ := ih (stepSt opts o s i) hdet' hrun
      exact ⟨i :: la, j, lb, by rw [hsplit]; rfl, by rwa [runSt_cons]⟩

/-- Output-path invariant: Idle states carry the original path,
Recording states a timestamped motion path. -/
def OutputInv (opts : MotionDetectOptions) (o : String) (s : LoopState) : Prop :=
  (s.motion_detected = false → s.output = o) ∧
  (s.motion_detected = true → ∃ ts, s.output = motionPath opts.savedir ts)

lemma outputInv_step (opts : MotionDetectOptions) (o : String)
    (s : LoopState) (i : TickIn) (h : OutputInv opts o s) :
    OutputInv opts o (stepSt opts o s i) := by
  by_cases hstart : firesStart opts s i = true
  · constructor
    · intro hfalse
      rw [stepSt_detected_of_start opts o s i hstart] at hfalse
      exact absurd hfalse (by simp)
    · intro _
      refine ⟨i.ts, ?_⟩
      unfold stepSt
      rw [processFrame_start opts o i s hstart]
      rw [endDecrement_output]
  · by_cases hstop : firesStop opts s i = true
    · constructor
      · intro _
        unfold stepSt
        rw [processFrame_stop opts o i s (by simpa using hstart) hstop]
        rw [endDecrement_output]
      · intro htrue
        unfold stepSt at htrue
        rw [processFrame_stop opts o i s (by simpa using hstart) hstop] at htrue
        rw [endDecrement_motion_detected] at htrue
        exact absurd htrue (by simp)
    · have hout : (stepSt opts o s i).output = s.output := by
        unfold stepSt
        rw [processFrame_none opts o i s (by simpa using hstart) (by simpa using hstop)]
        rw [endDecrement_output, aggregate_output]
      have hdet : (stepSt opts o s i).motion_detected = s.motion_detected :=
        stepSt_detected_of_none opts o s i (by simpa using hstart) (by simpa using hstop)
      exact ⟨fun hf => by rw [hout]; exact h.1 (by rwa [hdet] at hf),
             fun ht => by rw [hout]; exact h.2 (by rwa [hdet] at ht)⟩

lemma outputInv_run (opts : MotionDetectOptions) (o : String) :
    ∀ (l : List TickIn) (s : LoopState), OutputInv opts o s →
      OutputInv opts o (runSt opts o s l) := by
  intro l
  induction l with
  | nil => intro s h; simpa [runSt_nil] using h
  | cons i l ih =>
    intro s h
    rw [runSt_cons]
    exact ih _ (outputInv_step opts o s i h)

/-- The write cursor after any pass equals the cursor produced by the
aggregation (neither transition branch nor the trailing decrement
touches `frame_num`). -/
lemma stepSt_frame_num (opts : MotionDetectOptions) (o : String)
    (s : LoopState) (i : TickIn) :
    (stepSt opts o s i).frame_num = (aggregate opts.gap i.motion_val s).frame_num := by
  unfold stepSt processFrame stateMachine
  by_cases h1 : ((aggregate opts.gap i.motion_val s).motion_test &&
      !(aggregate opts.gap i.motion_val s).motion_detected) = true
  · rw [h1]
    simp [endDecrement_frame_num]
  · rw [Bool.not_eq_true] at h1
    rw [h1]
    by_cases h2 : (!(aggregate opts.gap i.motion_val s).motion_test &&
        (aggregate opts.gap i.motion_val s).motion_detected &&
        ((aggregate opts.gap i.motion_val s).frame_count == 0)) = true
    · rw [h2]
      simp [endDecrement_frame_num]
    · rw [Bool.not_eq_true] at h2
      rw [h2]
      simp [endDecrement_frame_num]

/-- For a window size of at least 2, aggregation keeps the cursor within
the window: from a cursor `≤ gap - 1` it produces a cursor `≤ gap - 1`. -/
lemma aggregate_frame_num_le (g : Nat) (v : Bool) (s : LoopState)
    (hg : 2 ≤ g) (h : s.frame_num ≤ g - 1) :
    (aggregate g v s).frame_num ≤ g - 1 := by
  by_cases hf : s.frame_num + 1 = g
  · simp only [aggregate, hf, if_pos]
    omega
  · have : (aggregate g v s).frame_num = s.frame_num + 1 := by
      simp [aggregate, hf]
    omega

/-- For `gap = 1`, every pass increments the cursor by exactly one: the
first tick evaluates (`0 + 1 = 1`) and resets the cursor to 0 before the
trailing `frame_num++`, and `frame_num + 1 = 1` never holds again. -/
lemma aggregate_frame_num_gap_one (v : Bool) (s : LoopState) :
    (aggregate 1 v s).frame_num = s.frame_num + 1 := by
  by_cases hf : s.frame_num + 1 = 1
  · have h0 : s.frame_num = 0 := by omega
    simp [aggregate, hf, h0]
  · simp [aggregate, hf]

lemma endDecrement_motion_test (s : LoopState) :
    (endDecrement s).motion_test = s.motion_test := by
  unfold endDecrement
  split <;> rfl

lemma aggregate_motion_test_of_ne (g : Nat) (v : Bool) (s : LoopState)
    (h : s.frame_num + 1 ≠ g) :
    (aggregate g v s).motion_test = s.motion_test := by
  simp [aggregate, h]

lemma aggregate_frame_num_of_ne (g : Nat) (v : Bool) (s : LoopState)
    (h : s.frame_num + 1 ≠ g) :
    (aggregate g v s).frame_num = s.frame_num + 1 := by
  simp [aggregate, h]

lemma firesStart_false_of_agg_test (opts : MotionDetectOptions)
    (s : LoopState) (i : TickIn)
    (h : (aggregate opts.gap i.motion_val s).motion_test = false) :
    firesStart opts s i = false := by
  unfold firesStart
  rw [h]
  simp

/-- With a window size of at least 2, a run from a cursor inside the
window keeps the cursor inside the window. -/
lemma runSt_frame_num_le (opts : MotionDetectOptions) (o : String)
    (hg : 2 ≤ opts.gap) :
    ∀ (l : List TickIn) (s : LoopState), s.frame_num ≤ opts.gap - 1 →
      (runSt opts o s l).frame_num ≤ opts.gap - 1 := by
  intro l
  induction l with
  | nil => intro s h; simpa [runSt_nil] using h
  | cons i l ih =>
    intro s h
    rw [runSt_cons]
    refine ih _ ?_
    rw [stepSt_frame_num]
    exact aggregate_frame_num_le opts.gap i.motion_val s hg h

/-- With `gap = 1` the cursor advances by exactly one per tick of a run,
escaping the window for good after the first evaluation. -/
lemma runSt_frame_num_gap_one (opts : MotionDetectOptions) (o : String)
    (hg : opts.gap = 1) :
    ∀ (l : List TickIn) (s : LoopState),
      (runSt opts o s l).frame_num = s.frame_num + l.length := by
  intro l
  induction l with
  | nil => intro s; simp [runSt_nil]
  | cons i l ih =>
    intro s
    rw [runSt_cons, ih]
    rw [stepSt_frame_num, hg, aggregate_frame_num_gap_one]
    simp
    omega

/-- With `gap = 0` the evaluation guard `frame_num + 1 = 0` never holds:
the debounced flag and the recording flag stay `false` along any run and
the cursor advances unboundedly. -/
lemma runSt_gap_zero (opts : MotionDetectOptions) (o : String)
    (hg : opts.gap = 0) :
    ∀ (l : List TickIn) (s : LoopState), s.motion_test = false →
      s.motion_detected = false →
      (runSt opts o s l).motion_test = false ∧
      (runSt opts o s l).motion_detected = false ∧
      (runSt opts o s l).frame_num = s.frame_num + l.length := by
  intro l
  induction l with
  | nil => intro s h1 h2; simp [runSt_nil, h1, h2]
  | cons i l ih =>
    intro s h1 h2
    have hne : s.frame_num + 1 ≠ opts.gap := by omega
    have haggtest : (aggregate opts.gap i.motion_val s).motion_test = false := by
      rw [aggregate_motion_test_of_ne _ _ _ hne]
      exact h1
    have hstart : firesStart opts s i = false :=
      firesStart_false_of_agg_test opts s i haggtest
    have hstop : firesStop opts s i = false :=
      firesStop_false_of_not_detected opts s i h2
    have hstep : stepSt opts o s i =
        endDecrement (aggregate opts.gap i.motion_val s) := by
      unfold stepSt
      rw [processFrame_none opts o i s hstart hstop]
    rw [runSt_cons]
    have h1' : (stepSt opts o s i).motion_test = false := by
      rw [hstep, endDecrement_motion_test]
      exact haggtest
    have h2' : (stepSt opts o s i).motion_detected = false := by
      rw [hstep, endDecrement_motion_detected, aggregate_motion_detected]
      exact h2
    obtain ⟨ha, hb, hc⟩ := ih (stepSt opts o s i) h1' h2'
    refine ⟨ha, hb, ?_⟩
    rw [hc, hstep, endDecrement_frame_num, aggregate_frame_num_of_ne _ _ _ hne]
    simp
    omega

/-- A concrete configuration shared by the concrete evaluations below. -/
def sampleOpts : MotionDetectOptions :=
  { minframes := 3
    gap := 2
    savedir := "sav"
    timeout := 0
    frames := 0
    output := "orig"
    keypress := false
    signal := false
    codec := "h264" }

lemma firesStop_false_of_agg_test_true (opts : MotionDetectOptions)
    (s : LoopState) (i : TickIn)
    (h : (aggregate opts.gap i.motion_val s).motion_test = true) :
    firesStop opts s i = false := by
  unfold firesStop
  rw [h]
  simp

lemma detected_true_of_firesStop (opts : MotionDetectOptions)
    (s : LoopState) (i : TickIn) (h : firesStop opts s i = true) :
    s.motion_detected = true := by
  unfold firesStop at h
  rw [aggregate_motion_detected] at h
  rcases Bool.and_eq_true_iff.mp h with ⟨h1, -⟩
  exact (Bool.and_eq_true_iff.mp h1).2

/-- The sample configuration with `minframes = 0` (no hold). -/
def sampleOptsM0 : MotionDetectOptions :=
  { sampleOpts with minframes := 0 }

/-- The sample configuration with `gap = 5` (spec scenario). -/
def sampleOptsG5 : MotionDetectOptions :=
  { sampleOpts with gap := 5 }

lemma timeoutFlag_true_of (opts : MotionDetectOptions) (e : Nat)
    (h1 : opts.frames = 0) (h2 : opts.timeout ≠ 0) (h3 : opts.timeout < e) :
    timeoutFlag opts e = true := by
  simp [timeoutFlag, h1, h2, h3]

lemma timeoutFlag_false_of_le (opts : MotionDetectOptions) (e : Nat)
    (h : e ≤ opts.timeout) : timeoutFlag opts e = false := by
  have hd : decide (opts.timeout < e) = false := by
    simp
    omega
  simp [timeoutFlag, hd]

lemma frameoutFlag_false_of_zero (opts : MotionDetectOptions) (c : Nat)
    (h : opts.frames = 0) : frameoutFlag opts c = false := by
  simp [frameoutFlag, h]

/-- An iteration whose termination check fails continues with the
processed frame, emitting the Signal effect first when the key is the
newline. -/
lemma eventIter_cont (opts : MotionDetectOptions) (o : String)
    (count : Nat) (inp : IterIn) (s : LoopState)
    (hmsg : inp.msg = MsgType.RequestComplete)
    (hto : timeoutFlag opts inp.elapsed = false)
    (hfo : frameoutFlag opts count = false)
    (hx : inp.key ≠ keyLowerX) (hX : inp.key ≠ keyUpperX) :
    eventIter opts o count inp s =
      IterResult.cont (stepSt opts o s ⟨inp.motion_val, inp.ts⟩)
        ((if inp.key = keyNewline then [Eff.signalOutput] else []) ++
          (processFrame opts o ⟨inp.motion_val, inp.ts⟩ s).2) := by
  obtain ⟨msg, key, elapsed, mv, ts⟩ := inp
  simp only at hmsg hto hx hX ⊢
  subst hmsg
  unfold eventIter
  rw [hto, hfo]
  simp [hx, hX, stepSt]

/-- An iteration whose timeout flag is set exits with exactly one
`StopCamera` and one `StopEncoder` (after the Signal effect when the key
is the newline). -/
lemma eventIter_timeout_exit (opts : MotionDetectOptions) (o : String)
    (count : Nat) (inp : IterIn) (s : LoopState)
    (hmsg : inp.msg = MsgType.RequestComplete)
    (hto : timeoutFlag opts inp.elapsed = true) :
    eventIter opts o count inp s =
      IterResult.exit ((if inp.key = keyNewline then [Eff.signalOutput] else []) ++
        [Eff.stopCamera, Eff.stopEncoder]) := by
  obtain ⟨msg, key, elapsed, mv, ts⟩ := inp
  simp only at hmsg hto ⊢
  subst hmsg
  unfold eventIter
  rw [hto]
  simp

/-- An iteration resolving the stop key exits with exactly one
`StopCamera` and one `StopEncoder`. -/
lemma eventIter_key_exit (opts : MotionDetectOptions) (o : String)
    (count : Nat) (inp : IterIn) (s : LoopState)
    (hmsg : inp.msg = MsgType.RequestComplete)
    (hkey : inp.key = keyLowerX ∨ inp.key = keyUpperX) :
    eventIter opts o count inp s =
      IterResult.exit ((if inp.key = keyNewline then [Eff.signalOutput] else []) ++
        [Eff.stopCamera, Eff.stopEncoder]) := by
  obtain ⟨msg, key, elapsed, mv, ts⟩ := inp
  simp only at hmsg hkey ⊢
  subst hmsg
  unfold eventIter
  rcases hkey with hk | hk <;> simp [hk]

/-- The frame-processing effects never contain `StopEncoder`: the
transition branches restart the encoder without stopping it, and the
forwarding branch only encodes and previews. -/
lemma stopEncoder_not_in_processFrame (opts : MotionDetectOptions)
    (o : String) (i : TickIn) (s : LoopState) :
    Eff.stopEncoder ∉ (processFrame opts o i s).2 := by
  unfold processFrame stateMachine
  split
  · simp [transitionEffs]
  · split
    · simp [transitionEffs]
    · simp

/-! ## Claim theorems -/

/-- C1: evaluation cadence at the failing input.  The claim says the
window evaluation fires first on the `gap`-th frame and thereafter
exactly once per `gap` frames.  In the code, after an evaluation
`frame_num` is reset to 0 and then immediately incremented by the
trailing `frame_num++`, so with `gap = 2` the evaluation fires on tick 2
and again on tick 3 (one frame later, not two); consequently slot 0 is
written only on tick 1, so after votes `[T, F, F]` the debounced value
is still `true` although both votes of the last window are false; and
with `gap = 1` the cursor leaves the window for good (it is 2 after two
ticks), so the evaluation never fires again. -/
theorem c1_window_cadence_code_bug :
    evalFires sampleOpts.gap
        (runSt sampleOpts "orig" (initState "orig") [⟨false, "a"⟩]) = true ∧
    evalFires sampleOpts.gap
        (runSt sampleOpts "orig" (initState "orig")
          [⟨false, "a"⟩, ⟨false, "b"⟩]) = true ∧
    (runSt sampleOpts "orig" (initState "orig")
        [⟨true, "a"⟩, ⟨false, "b"⟩, ⟨false, "c"⟩]).motion_test = true ∧
    (runSt { sampleOpts with gap := 1 } "orig" (initState "orig")
        [⟨false, "a"⟩, ⟨false, "b"⟩]).frame_num = 2 := by
  decide

/-- C5: `gap = 0` is not rejected at configuration time.  The
`MotionDetectOptions` constructor performs no validation, and with
`gap = 0` the evaluation guard `frame_num == gap - 1` (that is,
`frame_num + 1 = 0`) never holds, so along any vote sequence the
debounced flag and the recording flag stay `false` and the write cursor
marches off unboundedly: the configuration is silently accepted and the
aggregator degraded, contrary to the claim. -/
theorem c5_gap_zero_silently_accepted (opts : MotionDetectOptions)
    (o : String) (l : List TickIn) (hgap : opts.gap = 0) :
    motionDetectOptionsAccepts opts = true ∧
    (runSt opts o (initState o) l).motion_test = false ∧
    (runSt opts o (initState o) l).motion_detected = false ∧
    (runSt opts o (initState o) l).frame_num = l.length := by
  obtain ⟨h1, h2, h3⟩ := runSt_gap_zero opts o hgap l (initState o) rfl rfl
  refine ⟨rfl, h1, h2, ?_⟩
  rw [h3]
  simp [initState]

/-- C5 witness: the configuration `gap = 0` is accepted and two all-true
votes still leave the debounced flag false. -/
theorem c5_gap_zero_silently_accepted_witness :
    ({ sampleOpts with gap := 0 } : MotionDetectOptions).gap = 0 ∧
    (runSt { sampleOpts with gap := 0 } "orig" (initState "orig")
        [⟨true, "a"⟩, ⟨true, "b"⟩]).motion_test = false :=
  ⟨rfl, (c5_gap_zero_silently_accepted { sampleOpts with gap := 0 } "orig"
      [⟨true, "a"⟩, ⟨true, "b"⟩] rfl).2.1⟩

/-- C6: queue contract.  Popping the empty queue raises the fatal
`no buffer available to return` error; a push followed immediately by a
pop on the empty queue removes exactly the pushed reference and leaves
the queue empty; and from any queue state a push followed by a pop
succeeds, removing exactly one reference, the head. -/
theorem c6_queue_contract :
    encodeBufferDone [] = Except.error "no buffer available to return" ∧
    (∀ x : Nat, encodeBufferDone (encodeBufferPush [] x) = Except.ok (x, [])) ∧
    (∀ (q : List Nat) (x : Nat), ∃ rest : List Nat,
      encodeBufferDone (encodeBufferPush q x) =
        Except.ok ((q ++ [x]).headI, rest) ∧ rest.length = q.length) := by
  refine ⟨rfl, fun x => rfl, fun q x => ?_⟩
  cases q with
  | nil => exact ⟨[], rfl, rfl⟩
  | cons a t => exact ⟨t ++ [x], rfl, by simp⟩

/-- C8 counterexample: the claim asserts that under `1 ≤ gap ≤ 10000`
the write cursor always satisfies `0 ≤ cursor ≤ gap - 1`.  With
`gap = 1` (inside the claimed precondition) the cursor is already 1
when the second vote is written, exceeding `gap - 1 = 0`. -/
theorem c8_gap_one_counterexample :
    (1 ≤ ({ sampleOpts with gap := 1 } : MotionDetectOptions).gap ∧
      ({ sampleOpts with gap := 1 } : MotionDetectOptions).gap ≤ 10000) ∧
    (runSt { sampleOpts with gap := 1 } "orig" (initState "orig")
        [⟨false, "a"⟩]).frame_num = 1 ∧
    ¬((runSt { sampleOpts with gap := 1 } "orig" (initState "orig")
        [⟨false, "a"⟩]).frame_num ≤
      ({ sampleOpts with gap := 1 } : MotionDetectOptions).gap - 1) := by
  decide

/-- C8 (amended): no configuration-time check constrains `gap` at all;
under the precondition `2 ≤ gap` every reachable cursor value, in
particular the index of every vote write, stays within `0 ≤ cursor ≤
gap - 1`; for `gap = 1` the cursor instead equals the number of ticks
run, growing without bound (past the window, and eventually past the
10000-entry array). -/
theorem c8_cursor_bounds (opts : MotionDetectOptions) (o : String)
    (l : List TickIn) :
    motionDetectOptionsAccepts opts = true ∧
    (2 ≤ opts.gap → (runSt opts o (initState o) l).frame_num ≤ opts.gap - 1) ∧
    (opts.gap = 1 → (runSt opts o (initState o) l).frame_num = l.length) := by
  refine ⟨rfl, fun hg => ?_, fun hg => ?_⟩
  · exact runSt_frame_num_le opts o hg l (initState o) (by simp [initState])
  · have h := runSt_frame_num_gap_one opts o hg l (initState o)
    rw [h]
    simp [initState]

/-- C8 witness: with `gap = 2` a three-tick run keeps the cursor within
the window. -/
theorem c8_cursor_bounds_witness :
    2 ≤ sampleOpts.gap ∧
    (runSt sampleOpts "orig" (initState "orig")
        [⟨false, "a"⟩, ⟨false, "b"⟩, ⟨false, "c"⟩]).frame_num ≤
      sampleOpts.gap - 1 :=
  ⟨by decide, (c8_cursor_bounds sampleOpts "orig"
      [⟨false, "a"⟩, ⟨false, "b"⟩, ⟨false, "c"⟩]).2.1 (by decide)⟩

/-- C2: no duplicate session start.  If the Idle-to-Recording guard
fires at the end of a prefix and fires again after further inputs, some
intermediate input fired the Recording-to-Idle guard: the start guard
requires `motion_detected = false`, the start transition sets it, and
only the stop transition clears it.  Moreover, while `motion_detected`
is set, a tick whose debounced vote is true takes the plain forwarding
branch: its effects are exactly encode + preview (no encoder restart)
and the output path is unchanged (no re-stamped filename). -/
theorem c2_no_duplicate_session_start (opts : MotionDetectOptions)
    (o : String) (s : LoopState) (l1 : List TickIn) (i1 : TickIn)
    (l2 : List TickIn) (i2 : TickIn)
    (h1 : firesStart opts (runSt opts o s l1) i1 = true)
    (h2 : firesStart opts
      (runSt opts o (stepSt opts o (runSt opts o s l1) i1) l2) i2 = true) :
    (∃ la j lb, l2 = la ++ j :: lb ∧
      firesStop opts
        (runSt opts o (stepSt opts o (runSt opts o s l1) i1) la) j = true) ∧
    (∀ (s' : LoopState) (i' : TickIn), s'.motion_detected = true →
      (aggregate opts.gap i'.motion_val s').motion_test = true →
      (processFrame opts o i' s').2 = [Eff.encodeBuffer, Eff.showPreview] ∧
      (stepSt opts o s' i').output = s'.output) := by
  constructor
  · have hdet1 : (stepSt opts o (runSt opts o s l1) i1).motion_detected = true :=
      stepSt_detected_of_start opts o _ i1 h1
    have hdet2 :
        (runSt opts o (stepSt opts o (runSt opts o s l1) i1) l2).motion_detected
          = false :=
      detected_false_of_firesStart opts _ i2 h2
    exact stop_fired_of_detected_lost opts o l2 _ hdet1 hdet2
  · intro s' i' hdet htest
    have hstart : firesStart opts s' i' = false :=
      firesStart_false_of_detected opts s' i' hdet
    have hstop : firesStop opts s' i' = false :=
      firesStop_false_of_agg_test_true opts s' i' htest
    constructor
    · rw [processFrame_none opts o i' s' hstart hstop]
    · unfold stepSt
      rw [processFrame_none opts o i' s' hstart hstop]
      rw [endDecrement_output, aggregate_output]

/-- C2 witness: with `gap = 2` and `minframes = 0`, a start fires on
tick 2 (votes F then T), a second start fires two ticks later, and the
theorem exhibits the intervening stop on the tick in between. -/
theorem c2_no_duplicate_session_start_witness :
    firesStart sampleOptsM0
        (runSt sampleOptsM0 "orig" (initState "orig") [⟨false, "a"⟩])
        ⟨true, "b"⟩ = true ∧
    firesStart sampleOptsM0
        (runSt sampleOptsM0 "orig"
          (stepSt sampleOptsM0 "orig"
            (runSt sampleOptsM0 "orig" (initState "orig") [⟨false, "a"⟩])
            ⟨true, "b"⟩)
          [⟨false, "c"⟩]) ⟨true, "d"⟩ = true ∧
    (∃ la j lb, [(⟨false, "c"⟩ : TickIn)] = la ++ j :: lb ∧
      firesStop sampleOptsM0
        (runSt sampleOptsM0 "orig"
          (stepSt sampleOptsM0 "orig"
            (runSt sampleOptsM0 "orig" (initState "orig") [⟨false, "a"⟩])
            ⟨true, "b"⟩) la) j = true) :=
  ⟨by decide, by decide,
    (c2_no_duplicate_session_start sampleOptsM0 "orig" (initState "orig")
      [⟨false, "a"⟩] ⟨true, "b"⟩ [⟨false, "c"⟩] ⟨true, "d"⟩
      (by decide) (by decide)).1⟩

/-- C3: hold-timer semantics.  On the tick whose Idle-to-Recording guard
fires, `frame_count` is set to `minframes` and, the trailing
`if (frame_count > 0) frame_count--` applying to that same Recording
tick, ends the tick at `minframes - 1`; the Recording-to-Idle guard
cannot fire on any tick entered with a positive hold counter, even if
the debounced vote is false; and every Recording tick entered with a
positive counter decrements it by exactly one. -/
theorem c3_hold_timer (opts : MotionDetectOptions) (o : String)
    (s : LoopState) (i : TickIn) :
    (firesStart opts s i = true →
      (stepSt opts o s i).frame_count = opts.minframes - 1) ∧
    (0 < s.frame_count → firesStop opts s i = false) ∧
    (s.motion_detected = true → 0 < s.frame_count →
      (stepSt opts o s i).frame_count = s.frame_count - 1) := by
  refine ⟨fun hst => ?_, fun hpos => firesStop_false_of_count_pos opts s i hpos,
    fun hdet hpos => ?_⟩
  · unfold stepSt
    rw [processFrame_start opts o i s hst]
    rw [endDecrement_frame_count]
  · have hstart : firesStart opts s i = false :=
      firesStart_false_of_detected opts s i hdet
    have hstop : firesStop opts s i = false :=
      firesStop_false_of_count_pos opts s i hpos
    unfold stepSt
    rw [processFrame_none opts o i s hstart hstop]
    rw [endDecrement_frame_count, aggregate_frame_count]

/-- C3 witness: the spec scenario `gap = 5`, `minframes = 3`, votes
`[F, F, F, F]` then `T`: the start guard fires and the tick ends with
the hold counter at `3 - 1`. -/
theorem c3_hold_timer_witness :
    firesStart sampleOptsG5
        (runSt sampleOptsG5 "orig" (initState "orig")
          [⟨false, "a"⟩, ⟨false, "b"⟩, ⟨false, "c"⟩, ⟨false, "d"⟩])
        ⟨true, "e"⟩ = true ∧
    (stepSt sampleOptsG5 "orig"
        (runSt sampleOptsG5 "orig" (initState "orig")
          [⟨false, "a"⟩, ⟨false, "b"⟩, ⟨false, "c"⟩, ⟨false, "d"⟩])
        ⟨true, "e"⟩).frame_count = sampleOptsG5.minframes - 1 :=
  ⟨by decide,
    (c3_hold_timer sampleOptsG5 "orig"
      (runSt sampleOptsG5 "orig" (initState "orig")
        [⟨false, "a"⟩, ⟨false, "b"⟩, ⟨false, "c"⟩, ⟨false, "d"⟩])
      ⟨true, "e"⟩).1 (by decide)⟩

/-- C4: output-path invariant.  Along any run from loop entry, provided
the startup output path is not itself of the motion-path form, the
current `options->output` equals the startup path exactly when
`motion_detected` is false; while Recording it is a timestamp-derived
path under `savedir`; and every tick whose Recording-to-Idle guard fires
restores the startup path. -/
theorem c4_output_path_invariant (opts : MotionDetectOptions) (o : String)
    (l : List TickIn) (h : ∀ ts, o ≠ motionPath opts.savedir ts) :
    ((runSt opts o (initState o) l).output = o ↔
      (runSt opts o (initState o) l).motion_detected = false) ∧
    ((runSt opts o (initState o) l).motion_detected = true →
      ∃ ts, (runSt opts o (initState o) l).output = motionPath opts.savedir ts) ∧
    (∀ (s' : LoopState) (i' : TickIn), firesStop opts s' i' = true →
      (stepSt opts o s' i').output = o) := by
  have hinv : OutputInv opts o (runSt opts o (initState o) l) := by
    refine outputInv_run opts o l (initState o) ⟨fun _ => rfl, fun ht => ?_⟩
    exact absurd ht (by simp [initState])
  refine ⟨⟨fun heq => ?_, fun hidle => hinv.1 hidle⟩, hinv.2, fun s' i' hstop => ?_⟩
  · cases hdet : (runSt opts o (initState o) l).motion_detected with
    | false => rfl
    | true =>
      obtain ⟨ts, hts⟩ := hinv.2 hdet
      exact absurd (heq ▸ hts) (h ts)
  · have hdet : s'.motion_detected = true :=
      detected_true_of_firesStop opts s' i' hstop
    have hstart : firesStart opts s' i' = false :=
      firesStart_false_of_detected opts s' i' hdet
    unfold stepSt
    rw [processFrame_stop opts o i' s' hstart hstop]
    rw [endDecrement_output]

/-- C4 witness: with startup path `"orig"` and `savedir = "sav"` (so no
timestamped path can collide with the startup path, by length), after a
triggering vote followed by a quiet vote the equivalence holds. -/
theorem c4_output_path_invariant_witness :
    (∀ ts, ("orig" : String) ≠ motionPath sampleOpts.savedir ts) ∧
    ((runSt sampleOpts "orig" (initState "orig")
        [⟨true, "a"⟩, ⟨false, "b"⟩]).output = "orig" ↔
      (runSt sampleOpts "orig" (initState "orig")
        [⟨true, "a"⟩, ⟨false, "b"⟩]).motion_detected = false) := by
  have hne : ∀ ts, ("orig" : String) ≠ motionPath sampleOpts.savedir ts := by
    intro ts heq
    have hlen := congrArg String.length heq
    rw [show motionPath sampleOpts.savedir ts =
        "sav" ++ "/" ++ ts ++ "-motionmov.h264" from rfl] at hlen
    rw [String.length_append, String.length_append, String.length_append] at hlen
    have e1 : ("orig" : String).length = 4 := rfl
    have e2 : ("sav" : String).length = 3 := rfl
    have e3 : ("/" : String).length = 1 := rfl
    have e4 : ("-motionmov.h264" : String).length = 15 := rfl
    rw [e1, e2, e3, e4] at hlen
    omega
  exact ⟨hne, (c4_output_path_invariant sampleOpts "orig"
    [⟨true, "a"⟩, ⟨false, "b"⟩] hne).1⟩

/-- C7: deadline-based termination.  With `frames = 0` and a nonzero
`timeout`, if every iteration before some input stays within the
deadline (and none carries a stop key or a non-`RequestComplete`
message) and that input's elapsed time exceeds the deadline, the run
exits at exactly that iteration — whatever the recording state — and
the exit iteration's effects are exactly one `StopCamera` followed by
one `StopEncoder` (preceded only by the Signal effect if the key was a
newline); no earlier iteration emitted a `StopEncoder`.  (Earlier
iterations may emit `StopCamera` inside a recording transition's
teardown/restart sequence.) -/
theorem c7_deadline_exit (opts : MotionDetectOptions) (o : String) :
    ∀ (pre : List IterIn) (count0 : Nat) (s : LoopState) (post : List IterIn)
      (inp : IterIn), opts.frames = 0 → opts.timeout ≠ 0 →
      (∀ j ∈ pre, j.msg = MsgType.RequestComplete ∧ j.key ≠ keyLowerX ∧
        j.key ≠ keyUpperX ∧ j.elapsed ≤ opts.timeout) →
      inp.msg = MsgType.RequestComplete → opts.timeout < inp.elapsed →
      ∃ trBefore : List Eff,
        runLoop opts o count0 s (pre ++ inp :: post) =
          (trBefore ++
            ((if inp.key = keyNewline then [Eff.signalOutput] else []) ++
              [Eff.stopCamera, Eff.stopEncoder]), RunOut.exited) ∧
        Eff.stopEncoder ∉ trBefore := by
  intro pre
  induction pre with
  | nil =>
    intro count0 s post inp hframes htimeout _ hmsg helapsed
    refine ⟨[], ?_, by simp⟩
    have hto : timeoutFlag opts inp.elapsed = true :=
      timeoutFlag_true_of opts inp.elapsed hframes htimeout helapsed
    simp only [List.nil_append]
    unfold runLoop
    rw [eventIter_timeout_exit opts o count0 inp s hmsg hto]
  | cons j pre ih =>
    intro count0 s post inp hframes htimeout hpre hmsg helapsed
    obtain ⟨hjmsg, hjx, hjX, hjel⟩ := hpre j (by simp)
    have hto : timeoutFlag opts j.elapsed = false :=
      timeoutFlag_false_of_le opts j.elapsed hjel
    have hfo : frameoutFlag opts count0 = false :=
      frameoutFlag_false_of_zero opts count0 hframes
    obtain ⟨trB, heq, hmem⟩ :=
      ih (count0 + 1) (stepSt opts o s ⟨j.motion_val, j.ts⟩) post inp hframes
        htimeout (fun k hk => hpre k (by simp [hk])) hmsg helapsed
    refine ⟨((if j.key = keyNewline then [Eff.signalOutput] else []) ++
      (processFrame opts o ⟨j.motion_val, j.ts⟩ s).2) ++ trB, ?_, ?_⟩
    · simp only [List.cons_append]
      unfold runLoop
      rw [eventIter_cont opts o count0 j s hjmsg hto hfo hjx hjX]
      dsimp only
      rw [heq]
      dsimp only
      simp [List.append_assoc]
    · intro hx
      rcases List.mem_append.mp hx with hx1 | hx2
      · rcases List.mem_append.mp hx1 with hx3 | hx4
        · rcases em (j.key = keyNewline) with hk | hk <;> simp [hk] at hx3
        · exact stopEncoder_not_in_processFrame opts o ⟨j.motion_val, j.ts⟩ s hx4
      · exact hmem hx2

/-- C7 witness: `timeout = 5` ms, `frames = 0`; one in-deadline
iteration (elapsed 3) then one past the deadline (elapsed 7) makes the
run exit with the `StopCamera`/`StopEncoder` pair. -/
theorem c7_deadline_exit_witness :
    ({ sampleOpts with timeout := 5 } : MotionDetectOptions).frames = 0 ∧
    ({ sampleOpts with timeout := 5 } : MotionDetectOptions).timeout ≠ 0 ∧
    (∀ j ∈ [(⟨MsgType.RequestComplete, 0, 3, false, "a"⟩ : IterIn)],
      j.msg = MsgType.RequestComplete ∧ j.key ≠ keyLowerX ∧
      j.key ≠ keyUpperX ∧
      j.elapsed ≤ ({ sampleOpts with timeout := 5 } : MotionDetectOptions).timeout) ∧
    (⟨MsgType.RequestComplete, 0, 7, false, "b"⟩ : IterIn).msg =
      MsgType.RequestComplete ∧
    ({ sampleOpts with timeout := 5 } : MotionDetectOptions).timeout <
      (⟨MsgType.RequestComplete, 0, 7, false, "b"⟩ : IterIn).elapsed ∧
    ∃ trBefore : List Eff,
      runLoop { sampleOpts with timeout := 5 } "orig" 0 (initState "orig")
          ([⟨MsgType.RequestComplete, 0, 3, false, "a"⟩] ++
            (⟨MsgType.RequestComplete, 0, 7, false, "b"⟩ : IterIn) :: []) =
        (trBefore ++
          ((if (⟨MsgType.RequestComplete, 0, 7, false, "b"⟩ : IterIn).key =
              keyNewline then [Eff.signalOutput] else []) ++
            [Eff.stopCamera, Eff.stopEncoder]), RunOut.exited) ∧
      Eff.stopEncoder ∉ trBefore :=
  ⟨rfl, by decide, by decide, rfl, by decide,
    c7_deadline_exit { sampleOpts with timeout := 5 } "orig"
      [⟨MsgType.RequestComplete, 0, 3, false, "a"⟩] 0 (initState "orig") []
      ⟨MsgType.RequestComplete, 0, 7, false, "b"⟩ rfl (by decide) (by decide)
      rfl (by decide)⟩

/-- C9: fixed output extension.  On every tick whose Idle-to-Recording
guard fires, the new output path is `savedir + "/" + timestamp +
"-motionmov.h264"`: the effects recreate the sink at exactly that path,
the `".h264"` suffix is a constant of the construction, and the path is
unchanged under any value of the `codec` option. -/
theorem c9_fixed_extension (opts : MotionDetectOptions) (o : String)
    (s : LoopState) (i : TickIn) (h : firesStart opts s i = true) :
    (stepSt opts o s i).output = motionPath opts.savedir i.ts ∧
    (processFrame opts o i s).2 =
      transitionEffs opts (motionPath opts.savedir i.ts) ∧
    motionPath opts.savedir i.ts =
      (opts.savedir ++ "/" ++ i.ts ++ "-motionmov") ++ ".h264" ∧
    (∀ codec2 : String,
      (stepSt { opts with codec := codec2 } o s i).output =
        motionPath opts.savedir i.ts) := by
  refine ⟨?_, ?_, ?_, ?_⟩
  · unfold stepSt
    rw [processFrame_start opts o i s h]
    rw [endDecrement_output]
  · rw [processFrame_start opts o i s h]
  · rw [String.append_assoc (opts.savedir ++ "/" ++ i.ts) "-motionmov" ".h264"]
    rfl
  · intro codec2
    have h2 : firesStart { opts with codec := codec2 } s i = true := h
    unfold stepSt
    rw [processFrame_start { opts with codec := codec2 } o i s h2]
    rw [endDecrement_output]

/-- C9 witness: the triggering tick after a quiet one produces
`"sav/TS-motionmov.h264"`. -/
theorem c9_fixed_extension_witness :
    firesStart sampleOpts
        (runSt sampleOpts "orig" (initState "orig") [⟨false, "a"⟩])
        ⟨true, "TS"⟩ = true ∧
    (stepSt sampleOpts "orig"
        (runSt sampleOpts "orig" (initState "orig") [⟨false, "a"⟩])
        ⟨true, "TS"⟩).output = motionPath sampleOpts.savedir "TS" :=
  ⟨by decide,
    (c9_fixed_extension sampleOpts "orig"
      (runSt sampleOpts "orig" (initState "orig") [⟨false, "a"⟩])
      ⟨true, "TS"⟩ (by decide)).1⟩

/-- C10: manual-trigger key.  With signal handling enabled, `SIGUSR1`
resolves to the newline key and `SIGUSR2` to `'x'`; with keypress
enabled (and signal handling off) the first stdin character is the key.
A `RequestComplete` iteration with the newline key and no expired
deadline emits the output sink's Signal effect and then proceeds exactly
as normal frame processing (same successor state, same processing
effects); any key other than `'x'`/`'X'` leaves the loop running, while
`'x'`/`'X'` exits it. -/
theorem c10_manual_trigger :
    (∀ (opts : MotionDetectOptions) (r : Bool) (c : Nat), opts.signal = true →
      (get_key_or_signal opts r c SIGUSR1).1 = keyNewline ∧
      (get_key_or_signal opts r c SIGUSR2).1 = keyLowerX) ∧
    (∀ (opts : MotionDetectOptions) (c sr : Nat), opts.keypress = true →
      opts.signal = false → (get_key_or_signal opts true c sr).1 = c) ∧
    (∀ (opts : MotionDetectOptions) (o : String) (count : Nat) (inp : IterIn)
      (s : LoopState), inp.msg = MsgType.RequestComplete →
      inp.key = keyNewline → timeoutFlag opts inp.elapsed = false →
      frameoutFlag opts count = false →
      eventIter opts o count inp s =
        IterResult.cont (stepSt opts o s ⟨inp.motion_val, inp.ts⟩)
          (Eff.signalOutput ::
            (processFrame opts o ⟨inp.motion_val, inp.ts⟩ s).2)) ∧
    (∀ (opts : MotionDetectOptions) (o : String) (count : Nat) (inp : IterIn)
      (s : LoopState), inp.msg = MsgType.RequestComplete →
      inp.key ≠ keyLowerX → inp.key ≠ keyUpperX →
      timeoutFlag opts inp.elapsed = false → frameoutFlag opts count = false →
      ∃ s' effs, eventIter opts o count inp s = IterResult.cont s' effs) ∧
    (∀ (opts : MotionDetectOptions) (o : String) (count : Nat) (inp : IterIn)
      (s : LoopState), inp.msg = MsgType.RequestComplete →
      (inp.key = keyLowerX ∨ inp.key = keyUpperX) →
      ∃ effs, eventIter opts o count inp s = IterResult.exit effs) := by
  refine ⟨?_, ?_, ?_, ?_, ?_⟩
  · intro opts r c hsig
    constructor <;> simp [get_key_or_signal, hsig, SIGUSR1, SIGUSR2, keyNewline, keyLowerX]
  · intro opts c sr hkp hsig
    simp [get_key_or_signal, hkp, hsig]
  · intro opts o count inp s hmsg hkey hto hfo
    have hx : inp.key ≠ keyLowerX := by rw [hkey]; decide
    have hX : inp.key ≠ keyUpperX := by rw [hkey]; decide
    rw [eventIter_cont opts o count inp s hmsg hto hfo hx hX]
    rw [hkey]
    simp [keyNewline]
  · intro opts o count inp s hmsg hx hX hto hfo
    exact ⟨_, _, eventIter_cont opts o count inp s hmsg hto hfo hx hX⟩
  · intro opts o count inp s hmsg hkey
    exact ⟨_, eventIter_key_exit opts o count inp s hmsg hkey⟩

/-- C10 witness: a concrete `RequestComplete` iteration with the newline
key and no deadline emits Signal and continues with normal processing;
and `SIGUSR1` with signal handling enabled resolves to the newline. -/
theorem c10_manual_trigger_witness :
    ({ sampleOpts with signal := true } : MotionDetectOptions).signal = true ∧
    (get_key_or_signal { sampleOpts with signal := true } false 0 SIGUSR1).1 =
      keyNewline ∧
    eventIter sampleOpts "orig" 0
        (⟨MsgType.RequestComplete, keyNewline, 0, true, "a"⟩ : IterIn)
        (initState "orig") =
      IterResult.cont
        (stepSt sampleOpts "orig" (initState "orig") ⟨true, "a"⟩)
        (Eff.signalOutput ::
          (processFrame sampleOpts "orig" ⟨true, "a"⟩ (initState "orig")).2) :=
  ⟨rfl,
    (c10_manual_trigger.1 { sampleOpts with signal := true } false 0 rfl).1,
    c10_manual_trigger.2.2.1 sampleOpts "orig" 0
      ⟨MsgType.RequestComplete, keyNewline, 0, true, "a"⟩ (initState "orig")
      rfl rfl (by decide) (by decide)⟩

end MotionVid
